import Mathlib

/-!
Verification of the go-embermug service core: connection lifecycle
(`handleConnectionEvent`, `connect`), state tracking (`handleEvent`),
client fan-out (`dispatchState`), the client session control loop
(`handleClient` select step), and the mug LED color codec
(`Color.MarshalBinary` / `Color.UnmarshalBinary`).

The Go code is shallowly embedded: device reads are an oracle record of
`Option` results (a `none` models a failed read), dispatching is recorded
as the list of snapshots handed to `dispatchState`, and each device read
actually performed is logged as a `ReadKind` entry so that claims about
the number of reads are provable.
-/

namespace Embermug

/-- Fixed-point temperature (Celsius times 100), as stored by the mug. -/
abbrev Temperature := Int

/-- Decoded battery information, mirroring `embermug.BatteryState`. -/
structure BatteryState where
  charge : Int
  charging : Bool
  temperature : Temperature
  voltage : Int
deriving DecidableEq, Repr

/-- The liquid-state enumeration (`embermug.State`), kept as the raw integer. -/
abbrev LiquidState := Int

/-- Mug notification events (`embermug.Event`), kept as the raw integer the
device sends, with the named constants from the Go source. -/
abbrev Event := Int

def eventRefreshBattery : Event := 1
def eventCharging : Event := 2
def eventNotCharging : Event := 3
def eventRefreshTarget : Event := 4
def eventRefreshTemperature : Event := 5
def eventNotImplemented : Event := 6
def eventRefreshLevel : Event := 7
def eventRefreshState : Event := 8

end Embermug

namespace Service

open Embermug

/-- The service snapshot (`service.State` in state.go). -/
structure State where
  connected : Bool
  state : LiquidState
  target : Temperature
  current : Temperature
  battery : BatteryState
  hasLiquid : Bool
deriving DecidableEq, Repr

/-- Oracle for the typed getters of a connected mug session. A `none`
models the getter returning an error; a `some v` models a successful
read returning `v`. -/
structure MugReads where
  getState : Option LiquidState
  getCurrentTemperature : Option Temperature
  getTargetTemperature : Option Temperature
  hasLiquid : Option Bool
  getBatteryState : Option BatteryState
deriving DecidableEq, Repr

/-- Which device attribute a getter call read; used to log the device
round-trips a handler performs. -/
inductive ReadKind where
  | liquidState
  | currentTemp
  | targetTemp
  | liquidLevel
  | battery
deriving DecidableEq, Repr

/-- A bluetooth device as seen by `handleConnectionEvent`: its address,
whether `embermug.New` succeeds on it, whether `StartEventNotifications`
succeeds, and the read oracle of the resulting session. -/
structure Device where
  address : Nat
  newOk : Bool
  notifyOk : Bool
  reads : MugReads
deriving DecidableEq, Repr

/-- The mug-lock-protected part of the `Service` struct: the snapshot and
the current session reference (`s.mug`, `none` when disconnected). -/
structure ServiceCore where
  state : State
  mug : Option MugReads
deriving DecidableEq, Repr

/-- The full-refresh statement sequence from the connected branch of
`Service.handleConnectionEvent` (service.go): set `Connected`, then
refresh liquid state, current temperature, target temperature, liquid
level and battery in that order, each failed read leaving that field at
its previous value. -/
def fullRefresh (prev : State) (reads : MugReads) : State :=
  let st0 := { prev with connected := true }
  let st1 := match reads.getState with
    | none => st0
    | some v => { st0 with state := v }
  let st2 := match reads.getCurrentTemperature with
    | none => st1
    | some v => { st1 with current := v }
  let st3 := match reads.getTargetTemperature with
    | none => st2
    | some v => { st2 with target := v }
  let st4 := match reads.hasLiquid with
    | none => st3
    | some v => { st3 with hasLiquid := v }
  match reads.getBatteryState with
  | none => st4
  | some v => { st4 with battery := v }

/-- `Service.handleConnectionEvent` (service.go). Returns the new core
state together with the list of snapshots passed to `dispatchState`.
The early returns (address mismatch, `embermug.New` failure,
`StartEventNotifications` failure) dispatch nothing. On the connected
path the snapshot's `connected` flag is set and then each attribute is
refreshed independently, a failed read leaving the previous value. -/
def handleConnectionEvent (target : Nat) (s : ServiceCore) (device : Device)
    (connected : Bool) : ServiceCore × List State :=
  if device.address ≠ target then
    (s, [])
  else if !connected then
    let st := { s.state with connected := false }
    ({ state := st, mug := none }, [st])
  else if !device.newOk then
    (s, [])
  else if !device.notifyOk then
    (s, [])
  else
    let st := fullRefresh s.state device.reads
    ({ state := st, mug := some device.reads }, [st])

/-- A sequence of connectivity callbacks, applied in order, accumulating
every snapshot dispatched along the way. -/
def runConnectionEvents (target : Nat) (s : ServiceCore)
    (events : List (Device × Bool)) : ServiceCore × List State :=
  match events with
  | [] => (s, [])
  | ev :: rest =>
    let r := handleConnectionEvent target s ev.1 ev.2
    let r2 := runConnectionEvents target r.1 rest
    (r2.1, r.2 ++ r2.2)

/-- `Service.handleEvent` (service.go): the incremental-event callback.
Returns the new core state, the list of snapshots passed to
`dispatchState` (empty when `changed` was false), and the log of device
reads performed. `changed` starts out true; only an equality between the
freshly read value and the stored one resets it, exactly as in the
source, so an event matching no switch case still dispatches. The
battery comparison ignores `voltage`, as the source does. -/
def handleEvent (s : ServiceCore) (event : Event) :
    ServiceCore × List State × List ReadKind :=
  match s.mug with
  | none => (s, [], [])
  | some mug =>
    let step : State × Bool × List ReadKind :=
      if event = eventRefreshState then
        match mug.getState with
        | none => (s.state, true, [ReadKind.liquidState])
        | some v =>
          if v = s.state.state then (s.state, false, [ReadKind.liquidState])
          else ({ s.state with state := v }, true, [ReadKind.liquidState])
      else if event = eventRefreshTemperature then
        match mug.getCurrentTemperature with
        | none => (s.state, true, [ReadKind.currentTemp])
        | some v =>
          if v = s.state.current then (s.state, false, [ReadKind.currentTemp])
          else ({ s.state with current := v }, true, [ReadKind.currentTemp])
      else if event = eventRefreshTarget then
        match mug.getTargetTemperature with
        | none => (s.state, true, [ReadKind.targetTemp])
        | some v =>
          if v = s.state.target then (s.state, false, [ReadKind.targetTemp])
          else ({ s.state with target := v }, true, [ReadKind.targetTemp])
      else if event = eventRefreshLevel then
        match mug.hasLiquid with
        | none => (s.state, true, [ReadKind.liquidLevel])
        | some v =>
          if v = s.state.hasLiquid then (s.state, false, [ReadKind.liquidLevel])
          else ({ s.state with hasLiquid := v }, true, [ReadKind.liquidLevel])
      else if event = eventRefreshBattery then
        match mug.getBatteryState with
        | none => (s.state, true, [ReadKind.battery])
        | some b =>
          if b.charging = s.state.battery.charging ∧ b.charge = s.state.battery.charge
              ∧ b.temperature = s.state.battery.temperature then
            (s.state, false, [ReadKind.battery])
          else ({ s.state with battery := b }, true, [ReadKind.battery])
      else if event = eventCharging then
        ({ s.state with battery := { s.state.battery with charging := true } }, true, [])
      else if event = eventNotCharging then
        ({ s.state with battery := { s.state.battery with charging := false } }, true, [])
      else
        (s.state, true, [])
    let s2 : ServiceCore := { s with state := step.1 }
    if step.2.1 then (s2, [step.1], step.2.2) else (s2, [], step.2.2)

/-- A registered client as `dispatchState` sees it: its unique id and
whether its cancellation context has already fired. -/
structure Client where
  id : Nat
  cancelled : Bool
deriving DecidableEq, Repr

/-- `Service.dispatchState` (service.go): iterate the client registry;
a client whose context is done is closed and deleted, every other
client is handed the snapshot on its channel. Returns the surviving
registry and the list of (client id, snapshot) deliveries. -/
def dispatchState (clients : List Client) (st : State) :
    List Client × List (Nat × State) :=
  match clients with
  | [] => ([], [])
  | c :: rest =>
    let r := dispatchState rest st
    if c.cancelled then r
    else (c :: r.1, (c.id, st) :: r.2)

/-- An inbound client control message (`service.Message`, used as
`msg.Reconnect` in handleClient). -/
structure Message where
  reconnect : Bool
deriving DecidableEq, Repr

/-- One of the three select alternatives of the `handleClient` main loop:
parent-context cancellation, an inbound message (with the channel-ok
flag), or a snapshot arriving on the delivery channel. -/
inductive ClientEvent where
  | ctxDone
  | message (ok : Bool) (msg : Message)
  | delivery (st : State)
deriving DecidableEq, Repr

/-- Outcome of one iteration of the `handleClient` select loop: whether
the loop continues (false models `return`, i.e. session teardown), how
many times `s.connect()` was invoked, and the snapshot written to the
socket, if any. -/
structure StepOutcome where
  continues : Bool
  connectCalls : Nat
  wrote : Option State
deriving DecidableEq, Repr

/-- One iteration of the `handleClient` select loop (service.go).
`connectFails` models whether `s.connect()` would return a non-nil
error, `sendFails` whether writing to the socket would fail. In the
source, a failed `s.connect()` hits a `return` (the EPIPE branch and
the logged branch both return), ending the session. -/
def handleClientStep (connectFails : Bool) (sendFails : Bool)
    (ev : ClientEvent) : StepOutcome :=
  match ev with
  | ClientEvent.ctxDone => ⟨false, 0, none⟩
  | ClientEvent.message ok msg =>
    if !ok then ⟨false, 0, none⟩
    else if msg.reconnect then
      if connectFails then ⟨false, 1, none⟩ else ⟨true, 1, none⟩
    else ⟨true, 0, none⟩
  | ClientEvent.delivery st =>
    if sendFails then ⟨false, 0, none⟩ else ⟨true, 0, some st⟩

/-- The retry loop of `Service.connect` (service.go), with the attempt
counter and remaining tries explicit. `f` is the transport connect
oracle, indexed by attempt number. Returns the session (if any), the
`lastErr` value returned, and the number of attempts made. -/
def connectAux {E D : Type} (f : Nat → Except E D) (tr : Nat)
    (remaining : Nat) (lastErr : Option E) : Option D × Option E × Nat :=
  match remaining with
  | 0 => (none, lastErr, 0)
  | n + 1 =>
    match f tr with
    | Except.ok d => (some d, none, 1)
    | Except.error e =>
      let r := connectAux f (tr + 1) n (some e)
      (r.1, r.2.1, r.2.2 + 1)

/-- `Service.connect` (service.go): up to 10 transport connect attempts,
returning the first successful session, or the last error when every
attempt fails. -/
def connect {E D : Type} (f : Nat → Except E D) : Option D × Option E × Nat :=
  connectAux f 0 10 none

end Service

namespace Embermug

/-- The mug LED color (`embermug.Color`). -/
structure Color where
  red : Nat
  green : Nat
  blue : Nat
  alpha : Nat
deriving DecidableEq, Repr

/-- `Color.MarshalBinary` (mug.go): encodes as the byte sequence
Red, Green, Blue, Alpha. -/
def Color.marshalBinary (c : Color) : List Nat :=
  [c.red, c.green, c.blue, c.alpha]

/-- `Color.UnmarshalBinary` (mug.go): rejects inputs shorter than 4
bytes; otherwise assigns Red from byte 0, Blue from byte 1, Green from
byte 2 and Alpha from byte 3, exactly as the source does. -/
def Color.unmarshalBinary (data : List Nat) : Option Color :=
  match data with
  | d0 :: d1 :: d2 :: d3 :: _ =>
    some { red := d0, blue := d1, green := d2, alpha := d3 }
  | _ => none

end Embermug

namespace Service

open Embermug

/-- C1: for every connectivity callback whose device address differs from
the configured target, `handleConnectionEvent` returns with the core
state (snapshot and session reference) unchanged and dispatches nothing,
and hence any sequence of such callbacks leaves everything unchanged and
dispatches nothing. -/
theorem filter_invariant (target : Nat) (s : ServiceCore)
    (events : List (Device × Bool))
    (h : ∀ ev ∈ events, ev.1.address ≠ target) :
    runConnectionEvents target s events = (s, []) := by
  induction events generalizing s with
  | nil => rfl
  | cons ev rest ih =>
    have hne : ev.1.address ≠ target := h ev (List.mem_cons_self ev rest)
    have hrest : ∀ e ∈ rest, e.1.address ≠ target :=
      fun e he => h e (List.mem_cons_of_mem ev he)
    simp [runConnectionEvents, handleConnectionEvent, hne, ih _ hrest]

/-- Witness for the filter invariant at a concrete two-event sequence of
foreign-device callbacks. -/
theorem filter_invariant_witness :
    (∀ ev ∈ ([(⟨3, true, true, ⟨some 1, some 2, some 3, some true, none⟩⟩, true),
              (⟨4, false, true, ⟨none, none, none, none, none⟩⟩, false)] :
        List (Device × Bool)), ev.1.address ≠ 9) ∧
    runConnectionEvents 9
      ⟨⟨true, 1, 10, 20, ⟨50, false, 30, 0⟩, true⟩, none⟩
      [(⟨3, true, true, ⟨some 1, some 2, some 3, some true, none⟩⟩, true),
       (⟨4, false, true, ⟨none, none, none, none, none⟩⟩, false)] =
      (⟨⟨true, 1, 10, 20, ⟨50, false, 30, 0⟩, true⟩, none⟩, []) :=
  ⟨by decide, filter_invariant 9 _ _ (by decide)⟩

/-- C5: on a disconnected-transition for the target device,
`handleConnectionEvent` clears the session reference, sets
`connected := false`, dispatches exactly that snapshot, and leaves the
liquid state, target and current temperatures, battery, and liquid-level
fields at their previous values. -/
theorem disconnect_frame (target : Nat) (s : ServiceCore) (d : Device)
    (haddr : d.address = target) :
    (handleConnectionEvent target s d false).1.mug = none ∧
    (handleConnectionEvent target s d false).1.state.connected = false ∧
    (handleConnectionEvent target s d false).2 =
      [(handleConnectionEvent target s d false).1.state] ∧
    (handleConnectionEvent target s d false).1.state.state = s.state.state ∧
    (handleConnectionEvent target s d false).1.state.target = s.state.target ∧
    (handleConnectionEvent target s d false).1.state.current = s.state.current ∧
    (handleConnectionEvent target s d false).1.state.battery = s.state.battery ∧
    (handleConnectionEvent target s d false).1.state.hasLiquid = s.state.hasLiquid := by
  simp [handleConnectionEvent, haddr]

/-- Witness for the disconnect frame property at a concrete state and
device. -/
theorem disconnect_frame_witness :
    (⟨5, true, true, ⟨none, none, none, none, none⟩⟩ : Device).address = 5 ∧
    (handleConnectionEvent 5 ⟨⟨true, 6, 11, 22, ⟨80, true, 33, 1⟩, true⟩,
        some ⟨none, none, none, none, none⟩⟩
      ⟨5, true, true, ⟨none, none, none, none, none⟩⟩ false).1.state.current = 22 :=
  ⟨rfl, (disconnect_frame 5 ⟨⟨true, 6, 11, 22, ⟨80, true, 33, 1⟩, true⟩,
      some ⟨none, none, none, none, none⟩⟩
      ⟨5, true, true, ⟨none, none, none, none, none⟩⟩ rfl).2.2.2.2.2.1⟩

/-- The refresh sequence computes, field by field, either the freshly
read value or the previous one. -/
theorem fullRefresh_eq (prev : State) (reads : MugReads) :
    fullRefresh prev reads =
      { connected := true,
        state := reads.getState.getD prev.state,
        target := reads.getTargetTemperature.getD prev.target,
        current := reads.getCurrentTemperature.getD prev.current,
        battery := reads.getBatteryState.getD prev.battery,
        hasLiquid := reads.hasLiquid.getD prev.hasLiquid } := by
  cases reads with
  | mk gs gc gt hl gb =>
    cases gs <;> cases gc <;> cases gt <;> cases hl <;> cases gb <;> rfl

/-- On a connected-transition for the target device with session
construction and notification registration succeeding, the handler
stores the session and dispatches the refreshed snapshot. -/
theorem handleConnectionEvent_connected (target : Nat) (s : ServiceCore)
    (d : Device) (haddr : d.address = target) (hnew : d.newOk = true)
    (hnot : d.notifyOk = true) :
    handleConnectionEvent target s d true =
      ({ state := fullRefresh s.state d.reads, mug := some d.reads },
       [fullRefresh s.state d.reads]) := by
  simp [handleConnectionEvent, haddr, hnew, hnot]

/-- C4: on a connected-transition for the target device (with session
construction and notification registration succeeding), the full refresh
sets `connected := true`, stores the session, and refreshes each
attribute independently: a successful read stores exactly the value the
device returned, a failed read leaves the previous value, and no failed
read aborts the refresh of the remaining attributes; the resulting
snapshot is dispatched. -/
theorem full_refresh (target : Nat) (s : ServiceCore) (d : Device)
    (haddr : d.address = target) (hnew : d.newOk = true)
    (hnot : d.notifyOk = true) :
    (handleConnectionEvent target s d true).1.state.connected = true ∧
    (handleConnectionEvent target s d true).1.state.state =
      d.reads.getState.getD s.state.state ∧
    (handleConnectionEvent target s d true).1.state.current =
      d.reads.getCurrentTemperature.getD s.state.current ∧
    (handleConnectionEvent target s d true).1.state.target =
      d.reads.getTargetTemperature.getD s.state.target ∧
    (handleConnectionEvent target s d true).1.state.hasLiquid =
      d.reads.hasLiquid.getD s.state.hasLiquid ∧
    (handleConnectionEvent target s d true).1.state.battery =
      d.reads.getBatteryState.getD s.state.battery ∧
    (handleConnectionEvent target s d true).1.mug = some d.reads ∧
    (handleConnectionEvent target s d true).2 =
      [(handleConnectionEvent target s d true).1.state] := by
  rw [handleConnectionEvent_connected target s d haddr hnew hnot,
    fullRefresh_eq s.state d.reads]
  exact ⟨rfl, rfl, rfl, rfl, rfl, rfl, rfl, rfl⟩

/-- Witness for the full refresh at a concrete device whose target
temperature and battery reads fail: those fields keep their previous
values while the others take the freshly read ones. -/
theorem full_refresh_witness :
    (handleConnectionEvent 7
      ⟨⟨false, 6, 11, 22, ⟨80, true, 33, 1⟩, true⟩, none⟩
      ⟨7, true, true, ⟨some 4, some 2130, none, some false, none⟩⟩
      true).1.state.connected = true ∧
    (handleConnectionEvent 7
      ⟨⟨false, 6, 11, 22, ⟨80, true, 33, 1⟩, true⟩, none⟩
      ⟨7, true, true, ⟨some 4, some 2130, none, some false, none⟩⟩
      true).1.state.current = 2130 ∧
    (handleConnectionEvent 7
      ⟨⟨false, 6, 11, 22, ⟨80, true, 33, 1⟩, true⟩, none⟩
      ⟨7, true, true, ⟨some 4, some 2130, none, some false, none⟩⟩
      true).1.state.target = 11 :=
  have h := full_refresh 7
    ⟨⟨false, 6, 11, 22, ⟨80, true, 33, 1⟩, true⟩, none⟩
    ⟨7, true, true, ⟨some 4, some 2130, none, some false, none⟩⟩
    rfl rfl rfl
  ⟨h.1, h.2.2.1, h.2.2.2.1⟩

/-- C6: a `RefreshTemperature` event reads the current temperature from
the device exactly once; when the reading equals the stored current
temperature the handler reports no change (dispatches nothing) and
leaves the whole core state untouched; when it differs, it updates
exactly the current-temperature field and dispatches the updated
snapshot. -/
theorem refresh_temperature (st : State) (mug : MugReads) (t : Temperature)
    (h : mug.getCurrentTemperature = some t) :
    (handleEvent ⟨st, some mug⟩ eventRefreshTemperature).2.2 =
      [ReadKind.currentTemp] ∧
    (t = st.current →
      handleEvent ⟨st, some mug⟩ eventRefreshTemperature =
        (⟨st, some mug⟩, [], [ReadKind.currentTemp])) ∧
    (t ≠ st.current →
      handleEvent ⟨st, some mug⟩ eventRefreshTemperature =
        (⟨{ st with current := t }, some mug⟩,
         [{ st with current := t }], [ReadKind.currentTemp])) := by
  by_cases hc : t = st.current <;>
    simp [handleEvent, eventRefreshState, eventRefreshTemperature, h, hc]

/-- Witness for the RefreshTemperature property with a changed reading
at a concrete state. -/
theorem refresh_temperature_witness :
    handleEvent ⟨⟨true, 6, 5500, 2130, ⟨80, true, 33, 1⟩, true⟩,
        some ⟨none, some 2200, none, none, none⟩⟩ eventRefreshTemperature =
      (⟨⟨true, 6, 5500, 2200, ⟨80, true, 33, 1⟩, true⟩,
        some ⟨none, some 2200, none, none, none⟩⟩,
       [⟨true, 6, 5500, 2200, ⟨80, true, 33, 1⟩, true⟩],
       [ReadKind.currentTemp]) :=
  (refresh_temperature ⟨true, 6, 5500, 2130, ⟨80, true, 33, 1⟩, true⟩
    ⟨none, some 2200, none, none, none⟩ 2200 rfl).2.2 (by decide)

/-- C7: `Charging` and `NotCharging` events perform no device read, set
the battery charging flag directly from the event tag, change no other
snapshot field, and always dispatch the resulting snapshot. -/
theorem charging_events (st : State) (mug : MugReads) :
    handleEvent ⟨st, some mug⟩ eventCharging =
      (⟨{ st with battery := { st.battery with charging := true } }, some mug⟩,
       [{ st with battery := { st.battery with charging := true } }], []) ∧
    handleEvent ⟨st, some mug⟩ eventNotCharging =
      (⟨{ st with battery := { st.battery with charging := false } }, some mug⟩,
       [{ st with battery := { st.battery with charging := false } }], []) := by
  constructor <;>
    simp [handleEvent, eventRefreshState, eventRefreshTemperature,
      eventRefreshTarget, eventRefreshLevel, eventRefreshBattery,
      eventCharging, eventNotCharging]

/-- C8 counterexample: a `NotImplemented` event leaves the snapshot
unchanged and performs no read, but the handler still dispatches (the
`changed` flag starts true and no switch case resets it), contradicting
the claim that no dispatch is triggered. -/
theorem not_implemented_counterexample :
    (handleEvent ⟨⟨false, 1, 10, 20, ⟨50, false, 30, 0⟩, false⟩,
        some ⟨some 1, some 20, some 10, some false, some ⟨50, false, 30, 0⟩⟩⟩
      eventNotImplemented).1 =
      ⟨⟨false, 1, 10, 20, ⟨50, false, 30, 0⟩, false⟩,
        some ⟨some 1, some 20, some 10, some false, some ⟨50, false, 30, 0⟩⟩⟩ ∧
    (handleEvent ⟨⟨false, 1, 10, 20, ⟨50, false, 30, 0⟩, false⟩,
        some ⟨some 1, some 20, some 10, some false, some ⟨50, false, 30, 0⟩⟩⟩
      eventNotImplemented).2.1 ≠ [] := by
  decide

/-- C8 amended: a `NotImplemented` event leaves the core state
unchanged, performs no device read and raises no error, but reports
changed=true, so the unchanged snapshot is dispatched. -/
theorem not_implemented_dispatches (st : State) (mug : MugReads) :
    handleEvent ⟨st, some mug⟩ eventNotImplemented =
      (⟨st, some mug⟩, [st], []) := by
  simp [handleEvent, eventRefreshState, eventRefreshTemperature,
    eventRefreshTarget, eventRefreshLevel, eventRefreshBattery,
    eventCharging, eventNotCharging, eventNotImplemented]

/-- `dispatchState` keeps exactly the non-cancelled clients and delivers
the snapshot to exactly those clients, in registry order. -/
theorem dispatchState_eq (clients : List Client) (st : State) :
    dispatchState clients st =
      (clients.filter (fun c => !c.cancelled),
       (clients.filter (fun c => !c.cancelled)).map (fun c => (c.id, st))) := by
  induction clients with
  | nil => rfl
  | cons c rest ih =>
    cases hc : c.cancelled <;>
      simp [dispatchState, List.filter_cons, hc, ih]

/-- C2: dispatch hands the identical snapshot value to every registered
client whose cancellation has not fired; every client whose cancellation
fired before the dispatch is removed from the registry and receives
nothing (assuming client ids are unique, as they are by construction in
`RegisterClient`). -/
theorem dispatch_fanout (clients : List Client) (st : State)
    (hids : clients.Pairwise (fun a b => a.id ≠ b.id)) :
    (∀ p ∈ (dispatchState clients st).2, p.2 = st) ∧
    (∀ c ∈ clients, c.cancelled = false →
      (c.id, st) ∈ (dispatchState clients st).2 ∧
        c ∈ (dispatchState clients st).1) ∧
    (∀ c ∈ clients, c.cancelled = true →
      c ∉ (dispatchState clients st).1 ∧
        ∀ p ∈ (dispatchState clients st).2, p.1 ≠ c.id) := by
  rw [dispatchState_eq]
  refine ⟨?_, ?_, ?_⟩
  · intro p hp
    rcases List.mem_map.1 hp with ⟨c, _, rfl⟩
    rfl
  · intro c hc hcanc
    have hmem : c ∈ clients.filter (fun c => !c.cancelled) :=
      List.mem_filter.2 ⟨hc, by simp [hcanc]⟩
    exact ⟨List.mem_map.2 ⟨c, hmem, rfl⟩, hmem⟩
  · intro c hc hcanc
    have hsym : Symmetric (fun a b : Client => a.id ≠ b.id) :=
      fun a b h e => h e.symm
    refine ⟨fun hmem => ?_, fun p hp => ?_⟩
    · have := (List.mem_filter.1 hmem).2
      simp [hcanc] at this
    · rcases List.mem_map.1 hp with ⟨c2, hc2, rfl⟩
      have hc2m := List.mem_filter.1 hc2
      have hne : c2 ≠ c := by
        intro he
        rw [he] at hc2m
        simp [hcanc] at hc2m
      exact hids.forall hsym hc2m.1 hc hne

/-- Witness for the dispatch fan-out at a concrete three-client
registry with one cancelled client. -/
theorem dispatch_fanout_witness :
    (([⟨1, false⟩, ⟨2, true⟩, ⟨3, false⟩] : List Client).Pairwise
      (fun a b => a.id ≠ b.id)) ∧
    ((1 : Nat), (⟨true, 6, 10, 20, ⟨50, false, 30, 0⟩, true⟩ : State)) ∈
      (dispatchState [⟨1, false⟩, ⟨2, true⟩, ⟨3, false⟩]
        ⟨true, 6, 10, 20, ⟨50, false, 30, 0⟩, true⟩).2 :=
  ⟨by decide,
    ((dispatch_fanout [⟨1, false⟩, ⟨2, true⟩, ⟨3, false⟩]
        ⟨true, 6, 10, 20, ⟨50, false, 30, 0⟩, true⟩ (by decide)).2.1
      ⟨1, false⟩ (by decide) rfl).1⟩

/-- C3 counterexample: an inbound message with Reconnect=true when
`s.connect()` fails leads the select iteration to return, terminating
the client session, contradicting the claim that the session continues
running regardless of the connect result (connect is still invoked
exactly once). -/
theorem reconnect_failure_terminates :
    (handleClientStep true false (ClientEvent.message true ⟨true⟩)).connectCalls
      = 1 ∧
    (handleClientStep true false (ClientEvent.message true ⟨true⟩)).continues
      = false := by
  decide

/-- C3 amended: an inbound control message with Reconnect=true invokes
`s.connect()` exactly once and writes nothing to the socket; the client
session continues running exactly when connect succeeds, and terminates
(after logging) when connect fails. -/
theorem reconnect_message_step (connectFails sendFails : Bool) :
    handleClientStep connectFails sendFails (ClientEvent.message true ⟨true⟩) =
      ⟨!connectFails, 1, none⟩ := by
  cases connectFails <;> rfl

/-- One step of the retry loop: with tries remaining, a successful
attempt returns at once and a failed attempt recurses with the error
recorded and the attempt counted. -/
theorem connectAux_step {E D : Type} (f : Nat → Except E D) (tr n : Nat)
    (lastErr : Option E) :
    connectAux f tr (n + 1) lastErr =
      match f tr with
      | Except.ok d => (some d, none, 1)
      | Except.error e =>
        ((connectAux f (tr + 1) n (some e)).1,
         (connectAux f (tr + 1) n (some e)).2.1,
         (connectAux f (tr + 1) n (some e)).2.2 + 1) := rfl

/-- When every attempt through `tr + n` fails, the retry loop exhausts
its budget of `n + 1` tries and reports the error of the last one. -/
theorem connectAux_all_fail {E D : Type} (f : Nat → Except E D) (es : Nat → E) :
    ∀ (n tr : Nat) (lastErr : Option E),
      (∀ i, i ≤ n → f (tr + i) = Except.error (es (tr + i))) →
      connectAux f tr (n + 1) lastErr = (none, some (es (tr + n)), n + 1) := by
  intro n
  induction n with
  | zero =>
    intro tr lastErr h
    have h0 : f tr = Except.error (es tr) := by simpa using h 0 (Nat.le_refl 0)
    simp [connectAux, h0]
  | succ m ih =>
    intro tr lastErr h
    have h0 : f tr = Except.error (es tr) := by simpa using h 0 (Nat.zero_le _)
    have hrest : ∀ i, i ≤ m →
        f (tr + 1 + i) = Except.error (es (tr + 1 + i)) := by
      intro i hi
      have := h (i + 1) (Nat.succ_le_succ hi)
      have harith : tr + (i + 1) = tr + 1 + i := by omega
      rwa [harith] at this
    have hinner := ih (tr + 1) (some (es tr)) hrest
    have harith : tr + 1 + m = tr + (m + 1) := by omega
    rw [connectAux_step, h0]
    dsimp only
    rw [hinner, harith]

/-- When the first `i` attempts fail and attempt `i` succeeds within the
budget, the retry loop returns that session after exactly `i + 1`
attempts. -/
theorem connectAux_success {E D : Type} (f : Nat → Except E D) (d : D) :
    ∀ (i n tr : Nat) (lastErr : Option E), i < n →
      (∀ j, j < i → ∃ e, f (tr + j) = Except.error e) →
      f (tr + i) = Except.ok d →
      connectAux f tr n lastErr = (some d, none, i + 1) := by
  intro i
  induction i with
  | zero =>
    intro n tr lastErr hn _ hok
    match n, hn with
    | m + 1, _ =>
      have h0 : f tr = Except.ok d := by simpa using hok
      simp [connectAux, h0]
  | succ k ih =>
    intro n tr lastErr hn hj hok
    match n, hn with
    | m + 1, hn =>
      rcases hj 0 (Nat.succ_pos k) with ⟨e, he⟩
      have h0 : f tr = Except.error e := by simpa using he
      have hj2 : ∀ j, j < k → ∃ e2, f (tr + 1 + j) = Except.error e2 := by
        intro j hjk
        rcases hj (j + 1) (Nat.succ_lt_succ hjk) with ⟨e2, he2⟩
        have harith : tr + (j + 1) = tr + 1 + j := by omega
        exact ⟨e2, by rwa [harith] at he2⟩
      have hok2 : f (tr + 1 + k) = Except.ok d := by
        have harith : tr + (k + 1) = tr + 1 + k := by omega
        rwa [harith] at hok
      have hinner := ih m (tr + 1) (some e) (Nat.lt_of_succ_lt_succ hn) hj2 hok2
      simp [connectAux, h0, hinner]

/-- C9: `connect` makes up to exactly 10 transport attempts; if every
attempt fails it returns no session and the error of the last (10th)
attempt after exactly 10 attempts, and if attempt `i` is the first to
succeed it returns that session with no error after exactly `i + 1`
attempts, making no further ones. -/
theorem connect_retry_spec {E D : Type} (f : Nat → Except E D) (es : Nat → E)
    (d : D) (i : Nat) :
    ((∀ j, j < 10 → f j = Except.error (es j)) →
      connect f = (none, some (es 9), 10)) ∧
    (i < 10 → (∀ j, j < i → ∃ e, f j = Except.error e) → f i = Except.ok d →
      connect f = (some d, none, i + 1)) := by
  constructor
  · intro h
    have := connectAux_all_fail f es 9 0 none
      (fun j hj => by simpa using h j (by omega))
    simpa [connect] using this
  · intro hi hj hok
    have := connectAux_success f d i 10 0 none hi
      (fun j hj2 => by simpa using hj j hj2) (by simpa using hok)
    simpa [connect] using this

/-- Witness for the retry contract: an always-failing oracle exhausts 10
attempts and reports the last error; an oracle failing on the first 3
attempts yields the 4th attempt's session after 4 attempts. -/
theorem connect_retry_witness :
    connect (fun j => (Except.error j : Except Nat Nat)) = (none, some 9, 10) ∧
    connect (fun j => if j < 3 then (Except.error j : Except Nat Nat)
      else Except.ok 7) = (some 7, none, 4) :=
  ⟨(connect_retry_spec (fun j => (Except.error j : Except Nat Nat))
      (fun j => j) 0 0).1 (fun j _ => rfl),
   (connect_retry_spec (fun j => if j < 3 then (Except.error j : Except Nat Nat)
      else Except.ok 7) (fun j => j) 7 3).2 (by omega)
    (fun j hj => ⟨j, by simp [hj]⟩) (by simp)⟩

end Service

namespace Embermug

/-- C10 (code bug): the LED color codec does not round-trip. Encoding
writes Red, Green, Blue, Alpha, but decoding reads Red, Blue, Green,
Alpha, so decode(encode c) swaps the Green and Blue components: at
Red=10, Green=20, Blue=30, Alpha=40 the round trip yields Green=30,
Blue=20 instead of the original color. -/
theorem color_roundtrip_bug :
    Color.unmarshalBinary (Color.marshalBinary ⟨10, 20, 30, 40⟩) =
      some ⟨10, 30, 20, 40⟩ ∧
    Color.unmarshalBinary (Color.marshalBinary ⟨10, 20, 30, 40⟩) ≠
      some ⟨10, 20, 30, 40⟩ := by
  decide

end Embermug
